import Mathlib

/-!
Shallow embedding of parts of the axf repository:

- the OpenAI-compatibility adapter `axiestudio/api/v1/openai_responses.py`
  (flow-graph validation, last-message extraction, non-streaming result
  unwrapping, usage counting, and the server-sent-event stream generator), and
- the log-retrieval ring buffer `axiestudio/logging/logger.py`
  (`SizedLogBuffer`).

Python `dict`-or-`None` values are modelled with an explicit `Json` type;
fallible Python code (statements that can raise) is modelled with `Option` /
explicit outcome types, `none` standing for a raised exception.
-/

/-- JSON-like values: persisted flow graph data, request tweaks and flow
execution results are arbitrary JSON documents in the Python code. -/
inductive Json where
  | null
  | bool (b : Bool)
  | num (n : Int)
  | str (s : String)
  | arr (items : List Json)
  | obj (fields : List (String × Json))

/-- Lookup in the field list of a JSON object (Python `d[k]` / `d.get(k)` on a
dict; keys of a Python dict are unique, so the first match is the value). -/
def jlookup (fields : List (String × Json)) (key : String) : Option Json :=
  match fields with
  | [] => none
  | (k, v) :: rest => if k = key then some v else jlookup rest key

/-! The log-retrieval buffer `SizedLogBuffer` (logging/logger.py).

The deque is modelled as a `List` with its front at the head.  The methods are
modelled as pure state transformers; `none` models a raised exception
(`deque.popleft()` on an empty deque raises `IndexError`). -/

/-- One entry of the buffer as stored by `SizedLogBuffer.write`
(logger.py lines 45-52): a dict with the epoch timestamp in milliseconds and
the log text. -/
structure LogEntry where
  timestamp : Int
  message : String
deriving DecidableEq

/-- SizedLogBuffer.append (logger.py lines 86-90): under the write lock, if
`len(self.buffer) >= self.max` pop the left (oldest) element - which raises
`IndexError` (modelled as `none`) when the deque is empty - then append the
item at the right. -/
def SizedLogBuffer.append (max : Nat) (buffer : List α) (item : α) :
    Option (List α) :=
  if max ≤ buffer.length then
    match buffer with
    | [] => none
    | _ :: rest => some (rest ++ [item])
  else
    some (buffer ++ [item])

/-- SizedLogBuffer.write (logger.py lines 45-52): parses the loguru-serialized
JSON message and appends a dict with keys timestamp/message, with the same
eviction logic as `append`.  The JSON parsing is modelled as the already
extracted text and epoch value. -/
def SizedLogBuffer.write (max : Nat) (buffer : List LogEntry)
    (text : String) (epochMs : Int) : Option (List LogEntry) :=
  SizedLogBuffer.append max buffer ⟨epochMs, text⟩

/-- A sequence of `append` calls, propagating a raised exception. -/
def SizedLogBuffer.appendAll (max : Nat) (buffer : List α) (items : List α) :
    Option (List α) :=
  match items with
  | [] => some buffer
  | it :: rest =>
    match SizedLogBuffer.append max buffer it with
    | none => none
    | some b => SizedLogBuffer.appendAll max b rest

/-- Python `str.isdigit` restricted to ASCII digit strings (true on a
non-empty all-digit string), which is what the buffer-size env value uses. -/
def pyIsdigit (s : String) : Bool :=
  !s.isEmpty && s.toList.all Char.isDigit

/-- Value of `int(s)` on an all-digit string. -/
def digitsToNat (s : String) : Nat :=
  s.toList.foldl (fun acc c => acc * 10 + (c.toNat - Char.toNat '0')) 0

/-- SizedLogBuffer.max property getter (logger.py lines 120-127): when the
internal `_max` is 0, read `AXIESTUDIO_LOG_RETRIEVER_BUFFER_SIZE` (default
"0"); if it is all digits store it as `_max`; return `_max`. -/
def SizedLogBuffer.maxOf (internalMax : Nat) (env : Option String) : Nat :=
  if internalMax = 0 then
    let s := env.getD "0"
    if pyIsdigit s then digitsToNat s else internalMax
  else internalMax

/-! The OpenAI-compatibility adapter (api/v1/openai_responses.py). -/

/-- has_chat_input (openai_responses.py lines 33-38), with `none` modelling a
raised exception.  `not flow_data` is true for `None` and for the empty dict;
`node.get("data", \x7b\x7d).get("type")` raises AttributeError when the node,
or a present `data` value, is not a dict; iterating a non-list `nodes` value
either yields nothing (empty str/dict) or raises at the first element.
`any(...)` short-circuits at the first match. -/
def chatNodeTypeMatches (names : List String) (node : Json) : Option Bool :=
  match node with
  | .obj fields =>
    match jlookup fields "data" with
    | none => some false
    | some (.obj d) =>
      match jlookup d "type" with
      | some (.str s) => some (names.contains s)
      | _ => some false
    | some _ => none
  | _ => none

/-- Short-circuiting `any(... for node in nodes)` over `chatNodeTypeMatches`. -/
def anyNodeMatches (names : List String) : List Json → Option Bool
  | [] => some false
  | n :: rest =>
    match chatNodeTypeMatches names n with
    | none => none
    | some true => some true
    | some false => anyNodeMatches names rest

/-- Shared body of has_chat_input / has_chat_output for a given list of
accepted node type tags. -/
def hasChatNode (names : List String)
    (flow_data : Option (List (String × Json))) : Option Bool :=
  match flow_data with
  | none => some false
  | some d =>
    if d.isEmpty then some false
    else
      match jlookup d "nodes" with
      | none => some false
      | some (.arr nodes) => anyNodeMatches names nodes
      | some (.str s) => if s.isEmpty then some false else none
      | some (.obj fs) => if fs.isEmpty then some false else none
      | some _ => none

/-- has_chat_input (openai_responses.py lines 33-38). -/
def has_chat_input (flow_data : Option (List (String × Json))) : Option Bool :=
  hasChatNode ["ChatInput", "Chat Input"] flow_data

/-- has_chat_output (openai_responses.py lines 41-46). -/
def has_chat_output (flow_data : Option (List (String × Json))) : Option Bool :=
  hasChatNode ["ChatOutput", "Chat Output"] flow_data

/-- OpenAIMessage (schema/openai_responses_schemas.py lines 6-9). -/
structure OpenAIMessage where
  role : String
  content : String
deriving DecidableEq

/-- OpenAIResponsesRequest (schema lines 12-26).  The sampling parameters
(temperature, max_tokens, top_p, penalties, stop, user) are accepted by the
schema but never read by the endpoint, so they are omitted from the model. -/
structure OpenAIResponsesRequest where
  model : String
  messages : List OpenAIMessage
  stream : Bool := false
  session_id : Option String := none
  tweaks : Option (List (String × Json)) := none

/-- Error payload built by create_openai_error (openai_responses.py
lines 93-102). -/
structure OpenAIErrorBody where
  message : String
  type : String
  param : Option String
  code : Option String
deriving DecidableEq

/-- OpenAIErrorResponse (schema lines 73-75). -/
structure OpenAIErrorResponse where
  error : OpenAIErrorBody
deriving DecidableEq

/-- create_openai_error (openai_responses.py lines 93-102) with the default
error type. -/
def create_openai_error (error_message : String) : OpenAIErrorResponse :=
  ⟨⟨error_message, "invalid_request_error", none, none⟩⟩

/-- The message dict of a non-streaming choice (openai_responses.py
lines 246-249). -/
structure ChoiceMessage where
  role : String
  content : String
deriving DecidableEq

/-- One element of the non-streaming `choices` list (openai_responses.py
lines 244-251). -/
structure OpenAIChoice where
  index : Nat
  message : ChoiceMessage
  finish_reason : String
deriving DecidableEq

/-- The `usage` dict (openai_responses.py lines 252-256). -/
structure OpenAIUsage where
  prompt_tokens : Nat
  completion_tokens : Nat
  total_tokens : Nat
deriving DecidableEq

/-- OpenAIResponsesResponse (schema lines 43-52) as populated at
openai_responses.py lines 239-257. -/
structure OpenAIResponsesResponse where
  id : String
  object : String
  created : Int
  model : String
  choices : List OpenAIChoice
  usage : OpenAIUsage
deriving DecidableEq

/-- The `delta` dict of a streaming choice: either empty or carrying the new
content (openai_responses.py lines 175 and 189). -/
structure StreamDelta where
  content : Option String
deriving DecidableEq

/-- One element of a stream chunk's `choices` list (openai_responses.py
lines 173-177). -/
structure OpenAIStreamChoice where
  index : Nat
  delta : StreamDelta
  finish_reason : Option String
deriving DecidableEq

/-- OpenAIResponsesStreamChunk (schema lines 62-70) as populated at
openai_responses.py lines 168-178 and 182-192. -/
structure OpenAIResponsesStreamChunk where
  id : String
  object : String
  created : Int
  model : String
  choices : List OpenAIStreamChoice
deriving DecidableEq

/-- One server-sent-event frame yielded by the streaming generator: a
`data: <json>` line carrying a stream chunk, a `data: <json>` line carrying an
OpenAI error body (the except branch at line 199), or the literal sentinel
terminator line `data: [DONE]` followed by a blank line (line 194). -/
inductive StreamFrame where
  | chunk (c : OpenAIResponsesStreamChunk)
  | error (e : OpenAIErrorResponse)
  | done
deriving DecidableEq

/-- The literal terminator yielded at openai_responses.py line 194. -/
def done_sentinel : String := "data: [DONE]\n\n"

/-- Content-delta stream chunk (openai_responses.py lines 168-178): fresh id,
delta carrying only the new text, no finish reason. -/
def content_delta_chunk (model id : String) (created : Int) (chunk : String) :
    OpenAIResponsesStreamChunk :=
  ⟨id, "chat.completion.chunk", created, model, [⟨0, ⟨some chunk⟩, none⟩]⟩

/-- Final stream chunk (openai_responses.py lines 182-192): empty delta and
finish_reason "stop". -/
def final_stop_chunk (model id : String) (created : Int) :
    OpenAIResponsesStreamChunk :=
  ⟨id, "chat.completion.chunk", created, model, [⟨0, ⟨none⟩, some "stop"⟩]⟩

/-- What iterating the expression of the `async for` at openai_responses.py
line 158 does: the chunks it yields in order before it finishes, and, when it
ends by raising instead of finishing, the exception's string form. -/
structure IterationOutcome where
  produced : List String
  raised : Option String

/-- Frames emitted for the produced chunks by the loop body (lines 166-179):
falsy (empty) chunks are skipped, every other chunk becomes one content-delta
frame, in order; the k-th emitted frame draws the k-th fresh uuid and
timestamp. -/
def delta_frames (model : String) (ids : Nat → String) (createdAt : Nat → Int)
    (produced : List String) : List StreamFrame :=
  ((produced.filter (fun c => !c.isEmpty)).enum).map
    (fun p => StreamFrame.chunk (content_delta_chunk model (ids p.1) (createdAt p.1) p.2))

/-- generate_stream (openai_responses.py lines 156-199) as a function of the
iteration outcome of its `async for` loop: on normal completion the loop
frames are followed by the final stop chunk and the sentinel terminator; an
exception anywhere in the try block is caught and converted into a single
error frame (lines 196-199), after which the generator ends. -/
def generate_stream_frames (model : String) (ids : Nat → String)
    (createdAt : Nat → Int) (it : IterationOutcome) : List StreamFrame :=
  let deltas := delta_frames model ids createdAt it.produced
  match it.raised with
  | some msg => deltas ++ [StreamFrame.error (create_openai_error msg)]
  | none =>
    let k := (it.produced.filter (fun c => !c.isEmpty)).length
    deltas ++ [StreamFrame.chunk (final_stop_chunk model (ids k) (createdAt k)),
               StreamFrame.done]

/-- The message of the TypeError raised by `async for` over an object without
an `__aiter__` method (CPython wording; the exact text is irrelevant to the
claims). -/
def async_for_coroutine_type_error : String :=
  "'async for' requires an object with __aiter__ method, got coroutine"

/-- What the underlying streaming flow execution would yield: the chunks of
`run_flow_generator` and an optional exception ending the stream. -/
structure FlowStreamBehavior where
  chunks : List String
  raised : Option String

/-- The iteration outcome of the `async for` at openai_responses.py line 158
as written: the call `run_flow_for_openai_responses(...)` is not awaited, so
the loop iterates a coroutine object, which has no `__aiter__`; the iteration
raises TypeError before any chunk is obtained, whatever the underlying flow
would have yielded. -/
def generate_stream_iteration (_flow : FlowStreamBehavior) : IterationOutcome :=
  ⟨[], some async_for_coroutine_type_error⟩

/-- Substring test on character lists: the needle is a prefix of some suffix
of the haystack. -/
def charsInfix (needle : List Char) : List Char → Bool
  | [] => needle.isEmpty
  | c :: rest => needle.isPrefixOf (c :: rest) || charsInfix needle rest

/-- Bool form of `needle in hay` for Python strings (substring test). -/
def pyInStr (needle hay : String) : Bool :=
  charsInfix needle.toList hay.toList

/-- Bool form of `needle in hay` for a Python list: equality against each
element, true only on an equal string element. -/
def pyInArr (needle : String) (items : List Json) : Bool :=
  items.any fun x => match x with | .str s => s == needle | _ => false

/-- One `if key in x: y = x[key]` step of the extraction (openai_responses.py
lines 229, 233, 235).  On a dict this is a key test plus lookup; on a string
or list the membership test works but the subscript with a string raises
TypeError; on any other value the membership test itself raises TypeError.
`none` models a raised exception. -/
def level_in_subscript (key : String) (x : Json)
    (next : Json → Option String) : Option String :=
  match x with
  | .obj fields =>
    match jlookup fields key with
    | none => some ""
    | some v => next v
  | .str s => if pyInStr key s then none else some ""
  | .arr xs => if pyInArr key xs then none else some ""
  | _ => none

/-- One `if x and len(x) > 0: y = x[0]` step of the extraction
(openai_responses.py lines 227-228, 231-232).  Falsy values skip the branch
(content stays ""); `len` raises TypeError on bools and numbers; `x[0]` on a
dict with string keys raises KeyError; on a non-empty string it is the first
character (a one-character string).  `none` models a raised exception. -/
def level_first_element (x : Json) (next : Json → Option String) :
    Option String :=
  match x with
  | .null => some ""
  | .bool b => if b then none else some ""
  | .num n => if n = 0 then some "" else none
  | .str s =>
    match s.toList with
    | [] => some ""
    | c :: _ => next (.str (String.mk [c]))
  | .arr xs =>
    match xs with
    | [] => some ""
    | first :: _ => next first
  | .obj fields => if fields.isEmpty then some "" else none

/-- The final `results["message"].get("text", "")` step (openai_responses.py
line 236). `.get` on a non-dict raises AttributeError; a non-string "text"
value would later make `response_content.split()` raise, so it is also
modelled as an exception. -/
def message_get_text (m : Json) : Option String :=
  match m with
  | .obj fields =>
    match jlookup fields "text" with
    | none => some ""
    | some (.str t) => some t
    | some _ => none
  | _ => none

/-- The inline response-content extraction of the non-streaming path
(openai_responses.py lines 221-236): response_content starts as "" and is
only replaced when every nesting level
outputs -> first output -> outputs -> first entry -> results -> message ->
text is present; `none` models an exception raised by a type-mismatched
level. -/
def extract_response_content (result : Json) : Option String :=
  match result with
  | .obj fields =>
    match jlookup fields "outputs" with
    | none => some ""
    | some outputs =>
      level_first_element outputs (fun first_output =>
        level_in_subscript "outputs" first_output (fun output_data =>
          level_first_element output_data (fun first_data =>
            level_in_subscript "results" first_data (fun results =>
              level_in_subscript "message" results message_get_text))))
  | _ => some ""

/-- Structural description of "some level of the nesting is absent": the
containers along the path are well-formed but a key is missing or a list is
empty at some level (or the result is not a dict at all, so the first level
is absent). -/
def missing_at_some_level (result : Json) : Bool :=
  match result with
  | .obj fields =>
    match jlookup fields "outputs" with
    | none => true
    | some (.arr []) => true
    | some (.arr (.obj f1 :: _)) =>
      match jlookup f1 "outputs" with
      | none => true
      | some (.arr []) => true
      | some (.arr (.obj f2 :: _)) =>
        match jlookup f2 "results" with
        | none => true
        | some (.obj rs) =>
          match jlookup rs "message" with
          | none => true
          | some (.obj msg) => (jlookup msg "text").isNone
          | some _ => false
        | some _ => false
      | some _ => false
    | some _ => false
  | _ => true

/-- Accumulator-based splitter over the character list: emit the pending word
(reversed accumulator) at each whitespace character and at the end. -/
def splitWsAux : List Char → List Char → List String
  | [], acc => if acc.isEmpty then [] else [String.mk acc.reverse]
  | c :: rest, acc =>
    if c.isWhitespace then
      (if acc.isEmpty then [] else [String.mk acc.reverse]) ++ splitWsAux rest []
    else splitWsAux rest (c :: acc)

/-- Python `str.split()` with no separator: split on whitespace runs,
discarding empty pieces. -/
def pySplit (s : String) : List String :=
  splitWsAux s.toList []

/-- FlowRead as used by the endpoint: id, name, and the persisted graph data
dict (possibly absent). -/
structure FlowRead where
  id : String
  name : String
  data : Option (List (String × Json))

/-- SimplifiedAPIRequest as constructed by run_flow_for_openai_responses
(openai_responses.py lines 60-66). -/
structure SimplifiedAPIRequest where
  input_value : String
  input_type : String
  output_type : String
  tweaks : List (String × Json)
  session_id : Option String

/-- The request forwarded to the flow executor: input/output type "chat",
`tweaks or \x7b\x7d`, and the computed session id. -/
def run_flow_request (message : String) (session_id : Option String)
    (tweaks : Option (List (String × Json))) : SimplifiedAPIRequest :=
  { input_value := message
    input_type := "chat"
    output_type := "chat"
    tweaks := match tweaks with | some t => t | none => []
    session_id := session_id }

/-- The detail payload of a raised HTTPException: either a dumped OpenAI error
response, the plain `str(e)` of a flow-run error (line 90), or the
OpenAI-shaped internal-server-error body of the outer handler (lines 263-266)
whose message text depends on the propagated exception. -/
inductive ErrorDetail where
  | openai (e : OpenAIErrorResponse)
  | text (s : String)
  | internalException
deriving DecidableEq

/-- An HTTPException raised by the endpoint. -/
structure HttpError where
  status : Nat
  detail : ErrorDetail
deriving DecidableEq

/-- Outcome of `await simple_run_flow(...)` for the non-streaming path. -/
inductive RunOutcome where
  | ok (result : Json)
  | raised (msg : String)

/-- The environment the endpoint runs against: the flow-resolution result and
the values drawn from collaborators (uuid4 draws, the clock, the flow
executor's behaviour). -/
structure HandlerEnv where
  flowLookup : Option FlowRead
  uuid_session : String
  completion_id : String
  now : Int
  runOutcome : RunOutcome
  flowStream : FlowStreamBehavior
  stream_ids : Nat → String
  stream_created : Nat → Int

/-- Value returned by the endpoint on success: a JSON chat-completion response
or a streaming response whose consumption emits the given frames. -/
inductive HandlerResult where
  | json (r : OpenAIResponsesResponse)
  | streaming (frames : List StreamFrame)

/-- The endpoint's observable behaviour: its outcome, the number of flow
executions performed, and the run request forwarded to the flow executor (if
any). -/
structure HandlerTrace where
  outcome : Except HttpError HandlerResult
  executions : Nat
  forwarded : Option SimplifiedAPIRequest

/-- The 400 validation message at openai_responses.py lines 130-132. -/
def chat_components_error_msg : String :=
  "Flow must have both ChatInput and ChatOutput components for OpenAI compatibility"

/-- openai_chat_completions (openai_responses.py lines 105-266): resolve the
flow (404 when absent), validate the chat components (400, evaluated before
any execution; an exception from the check propagates to the outer handler as
a 500), require a non-empty message list (400), take the last message's
content and the session id (`request.session_id or str(uuid.uuid4())`, so an
omitted or empty session id draws a fresh uuid), then branch on `stream`.
The streaming branch performs no flow execution itself: it returns a
StreamingResponse over generate_stream, which - because the coroutine at line
158 is never awaited - fails at iteration setup without ever constructing the
run request or executing the flow.  The non-streaming branch awaits the flow
execution (exactly one execution; a raised error becomes a 500 with
`str(e)`), unwraps the result and builds the response with whitespace-split
usage counts. -/
def openai_chat_completions (env : HandlerEnv)
    (request : OpenAIResponsesRequest) : HandlerTrace :=
  match env.flowLookup with
  | none =>
    ⟨.error ⟨404, .openai (create_openai_error
        ("Flow '" ++ request.model ++ "' not found"))⟩, 0, none⟩
  | some flow =>
    match has_chat_input flow.data with
    | none => ⟨.error ⟨500, .internalException⟩, 0, none⟩
    | some false =>
      ⟨.error ⟨400, .openai (create_openai_error chat_components_error_msg)⟩,
        0, none⟩
    | some true =>
      match has_chat_output flow.data with
      | none => ⟨.error ⟨500, .internalException⟩, 0, none⟩
      | some false =>
        ⟨.error ⟨400, .openai (create_openai_error chat_components_error_msg)⟩,
          0, none⟩
      | some true =>
        match request.messages.getLast? with
        | none =>
          ⟨.error ⟨400, .openai (create_openai_error
              "At least one message is required")⟩, 0, none⟩
        | some last_message =>
          let message_content := last_message.content
          let session_id :=
            match request.session_id with
            | some s => if s.isEmpty then env.uuid_session else s
            | none => env.uuid_session
          if request.stream then
            ⟨.ok (.streaming (generate_stream_frames request.model
                env.stream_ids env.stream_created
                (generate_stream_iteration env.flowStream))), 0, none⟩
          else
            let req := run_flow_request message_content (some session_id)
              request.tweaks
            match env.runOutcome with
            | .raised msg => ⟨.error ⟨500, .text msg⟩, 1, some req⟩
            | .ok result =>
              match extract_response_content result with
              | none => ⟨.error ⟨500, .internalException⟩, 1, some req⟩
              | some response_content =>
                ⟨.ok (.json
                  { id := "chatcmpl-" ++ env.completion_id
                    object := "chat.completion"
                    created := env.now
                    model := request.model
                    choices := [⟨0, ⟨"assistant", response_content⟩, "stop"⟩]
                    usage := ⟨(pySplit message_content).length,
                      (pySplit response_content).length,
                      (pySplit message_content).length +
                        (pySplit response_content).length⟩ }),
                  1, some req⟩

/-- A node dict that lacks a "data" entry, or whose "data" dict lacks a
"type" entry. -/
def node_lacks_data_or_type (n : Json) : Bool :=
  match n with
  | .obj fields =>
    match jlookup fields "data" with
    | none => true
    | some (.obj d) => (jlookup d "type").isNone
    | some _ => false
  | _ => false

/-- Malformed or absent graph data in the sense of the safety claim: the data
is None, or its dict lacks the "nodes" key, or every node is a dict lacking
"data" or "type" entries. -/
def malformed_flow_data (fd : Option (List (String × Json))) : Bool :=
  match fd with
  | none => true
  | some d =>
    match jlookup d "nodes" with
    | none => true
    | some (.arr nodes) => nodes.all node_lacks_data_or_type
    | some _ => false

/-! Concrete sample values used by witnesses. -/

/-- Graph data whose nodes list is the given one. -/
def sampleFlowData (nodes : List Json) : Option (List (String × Json)) :=
  some [("nodes", Json.arr nodes)]

/-- A node tagged as a chat input component. -/
def chatInputNode : Json :=
  .obj [("data", .obj [("type", .str "ChatInput")])]

/-- A node tagged as a chat output component. -/
def chatOutputNode : Json :=
  .obj [("data", .obj [("type", .str "Chat Output")])]

/-- Graph data with one chat input and one chat output node. -/
def goodFlowData : Option (List (String × Json)) :=
  sampleFlowData [chatInputNode, chatOutputNode]

/-- A resolved flow over the given graph data. -/
def sampleFlow (data : Option (List (String × Json))) : FlowRead :=
  ⟨"flow-1", "Sample Flow", data⟩

/-- A handler environment resolving to a flow with the given data and the
given non-streaming execution outcome. -/
def sampleEnv (data : Option (List (String × Json))) (run : RunOutcome) :
    HandlerEnv :=
  { flowLookup := some (sampleFlow data)
    uuid_session := "uuid-session"
    completion_id := "uuid-completion"
    now := 0
    runOutcome := run
    flowStream := ⟨[], none⟩
    stream_ids := fun _ => "uuid-stream"
    stream_created := fun _ => 0 }

/-- A chat-completion request for the sample flow. -/
def sampleRequest (messages : List OpenAIMessage) (stream : Bool)
    (session : Option String) : OpenAIResponsesRequest :=
  { model := "flow-1", messages := messages, stream := stream,
    session_id := session, tweaks := none }

/-- The nested result document of the testable property, with text "hi". -/
def nestedHi : Json :=
  .obj [("outputs", .arr [.obj [("outputs", .arr [.obj [("results",
    .obj [("message", .obj [("text", .str "hi")])])]])]])]

/-- The nested result document with text "x y" (for the usage witness). -/
def nestedXY : Json :=
  .obj [("outputs", .arr [.obj [("outputs", .arr [.obj [("results",
    .obj [("message", .obj [("text", .str "x y")])])]])]])]

/-! Theorems. -/

lemma SizedLogBuffer.appendAll_drop {α : Type} (N : Nat) (hN : 0 < N) :
    ∀ (items buffer : List α), buffer.length ≤ N →
      SizedLogBuffer.appendAll N buffer items =
        some ((buffer ++ items).drop ((buffer ++ items).length - N)) := by
  intro items
  induction items with
  | nil =>
    intro buf hb
    have h0 : buf.length - N = 0 := Nat.sub_eq_zero_of_le hb
    simp [SizedLogBuffer.appendAll, h0]
  | cons it rest ih =>
    intro buf hb
    by_cases hfull : N ≤ buf.length
    · have hlen : buf.length = N := le_antisymm hb hfull
      cases buf with
      | nil => simp at hlen; omega
      | cons b0 brest =>
        have hbl : brest.length + 1 = N := by simpa using hlen
        simp only [SizedLogBuffer.appendAll, SizedLogBuffer.append,
          if_pos hfull]
        rw [ih (brest ++ [it]) (by simp; omega)]
        have e1 : (brest ++ [it]) ++ rest = brest ++ it :: rest := by simp
        rw [e1]
        have l1 : (brest ++ it :: rest).length - N = rest.length := by
          simp [List.length_append]; omega
        have l2 : ((b0 :: brest) ++ it :: rest).length - N = rest.length + 1 := by
          simp [List.length_append]; omega
        rw [l1, l2]
        simp [List.drop_succ_cons]
    · have hlt : buf.length < N := lt_of_not_le hfull
      simp only [SizedLogBuffer.appendAll, SizedLogBuffer.append,
        if_neg hfull]
      rw [ih (buf ++ [it]) (by simp; omega)]
      have e1 : (buf ++ [it]) ++ rest = buf ++ it :: rest := by simp
      rw [e1]

/-- C7: for every (positive) capacity N, appending more than N items to an
initially empty SizedLogBuffer leaves exactly the N most-recently-appended
items, in append order (the oldest item is evicted first at each overflow, so
the buffer content is the length-N suffix of the appended sequence). -/
theorem sized_log_buffer_ring_eviction {α : Type} (N : Nat) (items : List α)
    (hN : 0 < N) (hlen : N < items.length) :
    SizedLogBuffer.appendAll N [] items =
        some (items.drop (items.length - N)) ∧
      (items.drop (items.length - N)).length = N := by
  constructor
  · have h := SizedLogBuffer.appendAll_drop N hN items [] (by simp)
    simpa using h
  · simp [List.length_drop]; omega

/-- Witness for `sized_log_buffer_ring_eviction` at N = 2,
items = [1, 2, 3]. -/
theorem sized_log_buffer_ring_eviction_witness :
    0 < 2 ∧ 2 < ([1, 2, 3] : List Nat).length ∧
      SizedLogBuffer.appendAll 2 ([] : List Nat) [1, 2, 3] =
        some ([1, 2, 3].drop (([1, 2, 3] : List Nat).length - 2)) :=
  ⟨by decide, by decide,
    (sized_log_buffer_ring_eviction 2 [1, 2, 3] (by decide) (by decide)).1⟩

/-- C10: with the buffer disabled (internal max 0 and the environment variable
unset, so the effective max is 0) an `append` (hence also a `write`) on the
empty buffer raises IndexError (modelled as `none`): the overflow branch pops
from the empty deque because `len(buffer) >= max` already holds at length 0.
With max positive, `append` never raises, so the ring-buffer behaviour needs
the precondition max > 0. -/
theorem sized_log_buffer_disabled_append_raises :
    SizedLogBuffer.maxOf 0 none = 0 ∧
      (∀ item : LogEntry, SizedLogBuffer.append 0 [] item = none) ∧
      (∀ (m : Nat) (buffer : List LogEntry) (item : LogEntry), 0 < m →
        (SizedLogBuffer.append m buffer item).isSome = true) := by
  refine ⟨by decide, fun _ => rfl, ?_⟩
  intro m buffer item hm
  unfold SizedLogBuffer.append
  split
  · cases buffer with
    | nil => simp_all
    | cons _ _ => simp
  · simp

/-- Witness for `sized_log_buffer_disabled_append_raises` at m = 1. -/
theorem sized_log_buffer_disabled_append_raises_witness :
    0 < 1 ∧
      (SizedLogBuffer.append 1 ([] : List LogEntry) ⟨0, "x"⟩).isSome = true :=
  ⟨by decide,
    sized_log_buffer_disabled_append_raises.2.2 1 [] ⟨0, "x"⟩ (by decide)⟩

/-- C1 (counterexample): a streaming run in which the iterated generator
raises after one chunk ends with a single error frame - the last frame
emitted is not the sentinel terminator, so the frame sequence does not end
with the final stop chunk followed by the terminator. -/
theorem stream_exception_tail_counterexample :
    (generate_stream_frames "flow-1" (fun _ => "id") (fun _ => 0)
        ⟨["Hel"], some "boom"⟩).getLast? ≠ some StreamFrame.done := by
  decide

/-- C1 (amended): when the iteration of the `async for` completes without an
exception - including when it yields zero chunks - the emitted sequence is
the content-delta frames followed by exactly the empty-delta stop chunk and
the sentinel terminator, in that order, as the last two frames; when an
exception is raised mid-stream, the sequence instead ends with a single
error frame and neither the stop chunk nor the terminator is emitted.  Every
frame before the tail is a content-delta frame. -/
theorem stream_tail_stop_then_done_or_single_error (model : String)
    (ids : Nat → String) (createdAt : Nat → Int) (produced : List String) :
    (generate_stream_frames model ids createdAt ⟨produced, none⟩ =
      delta_frames model ids createdAt produced ++
        [StreamFrame.chunk (final_stop_chunk model
            (ids (produced.filter (fun c => !c.isEmpty)).length)
            (createdAt (produced.filter (fun c => !c.isEmpty)).length)),
          StreamFrame.done]) ∧
    (∀ msg : String, generate_stream_frames model ids createdAt
        ⟨produced, some msg⟩ =
      delta_frames model ids createdAt produced ++
        [StreamFrame.error (create_openai_error msg)]) ∧
    (delta_frames model ids createdAt produced).all
      (fun f => match f with
        | StreamFrame.chunk c => match c.choices with
          | [choice] => choice.delta.content.isSome && choice.finish_reason.isNone
          | _ => false
        | _ => false) = true := by
  refine ⟨rfl, fun _ => rfl, ?_⟩
  simp only [delta_frames, List.all_eq_true, List.mem_map]
  rintro f ⟨p, hp, rfl⟩
  simp [content_delta_chunk]

/-- C4 (the code evaluated at the failing input): for a streaming run whose
underlying flow would yield exactly ["Hel", "lo"] without raising, the code
as written emits a single error frame - the `async for` at line 158 iterates
the result of calling the coroutine function `run_flow_for_openai_responses`
without awaiting it, which raises TypeError before any chunk is obtained -
whereas the same loop translation applied to an iteration that does yield
["Hel", "lo"] would emit the two content-delta frames, the stop frame and
the terminator that the claim describes. -/
theorem stream_missing_await_single_error_frame :
    generate_stream_frames "flow-1" (fun _ => "id") (fun _ => 0)
        (generate_stream_iteration ⟨["Hel", "lo"], none⟩) =
      [StreamFrame.error (create_openai_error async_for_coroutine_type_error)] ∧
    generate_stream_frames "flow-1" (fun _ => "id") (fun _ => 0)
        ⟨["Hel", "lo"], none⟩ =
      [StreamFrame.chunk (content_delta_chunk "flow-1" "id" 0 "Hel"),
        StreamFrame.chunk (content_delta_chunk "flow-1" "id" 0 "lo"),
        StreamFrame.chunk (final_stop_chunk "flow-1" "id" 0),
        StreamFrame.done] := by
  constructor
  · rfl
  · decide

/-- C5: whenever the iteration inside the try block of generate_stream raises
after zero or more chunks, the exception is caught and converted into exactly
one error-shaped data frame appended after the already-emitted content-delta
frames (no protocol-level abort: the generator still ends normally), and that
error frame is the only error frame of the sequence. -/
theorem stream_exception_caught_one_error_frame (model : String)
    (ids : Nat → String) (createdAt : Nat → Int) (produced : List String)
    (msg : String) :
    generate_stream_frames model ids createdAt ⟨produced, some msg⟩ =
      delta_frames model ids createdAt produced ++
        [StreamFrame.error (create_openai_error msg)] ∧
    (generate_stream_frames model ids createdAt ⟨produced, some msg⟩).countP
      (fun f => match f with
        | StreamFrame.error _ => true
        | _ => false) = 1 := by
  refine ⟨rfl, ?_⟩
  show (delta_frames model ids createdAt produced ++
      [StreamFrame.error (create_openai_error msg)]).countP _ = 1
  rw [List.countP_append]
  have hzero : (delta_frames model ids createdAt produced).countP
      (fun f => match f with
        | StreamFrame.error _ => true
        | _ => false) = 0 := by
    rw [List.countP_eq_zero]
    simp only [delta_frames, List.mem_map]
    rintro f ⟨p, hp, rfl⟩
    simp
  rw [hzero]
  rfl

lemma chatNodeTypeMatches_of_lacks (names : List String) (n : Json)
    (hn : node_lacks_data_or_type n = true) :
    chatNodeTypeMatches names n = some false := by
  cases n with
  | obj fields =>
    simp only [node_lacks_data_or_type] at hn
    simp only [chatNodeTypeMatches]
    cases hdl : jlookup fields "data" with
    | none => rfl
    | some v =>
      rw [hdl] at hn
      cases v with
      | obj d =>
        rw [Option.isNone_iff_eq_none] at hn
        simp [hn]
      | null => simp at hn
      | bool b => simp at hn
      | num m => simp at hn
      | str s => simp at hn
      | arr xs => simp at hn
  | null => simp [node_lacks_data_or_type] at hn
  | bool b => simp [node_lacks_data_or_type] at hn
  | num m => simp [node_lacks_data_or_type] at hn
  | str s => simp [node_lacks_data_or_type] at hn
  | arr xs => simp [node_lacks_data_or_type] at hn

lemma anyNodeMatches_of_lacks (names : List String) :
    ∀ nodes : List Json, nodes.all node_lacks_data_or_type = true →
      anyNodeMatches names nodes = some false := by
  intro nodes h
  induction nodes with
  | nil => rfl
  | cons n rest ih =>
    rw [List.all_cons, Bool.and_eq_true] at h
    obtain ⟨hn, hrest⟩ := h
    simp only [anyNodeMatches, chatNodeTypeMatches_of_lacks names n hn]
    exact ih hrest

lemma hasChatNode_of_malformed (names : List String)
    (fd : Option (List (String × Json))) (h : malformed_flow_data fd = true) :
    hasChatNode names fd = some false := by
  cases fd with
  | none => rfl
  | some d =>
    simp only [malformed_flow_data] at h
    simp only [hasChatNode]
    cases hde : d.isEmpty with
    | true => simp [hde]
    | false =>
      simp only [hde, Bool.false_eq_true, if_false]
      cases hnd : jlookup d "nodes" with
      | none => rfl
      | some v =>
        rw [hnd] at h
        cases v with
        | arr nodes => simpa using anyNodeMatches_of_lacks names nodes h
        | null => simp at h
        | bool b => simp at h
        | num m => simp at h
        | str s => simp at h
        | obj fs => simp at h

/-- C9: has_chat_input and has_chat_output are total over the malformed graph
data the claim describes - data that is None, or whose dict lacks the "nodes"
key, or whose nodes are dicts lacking "data" or "type" entries: both return
False without raising (`some false`, never the exception value `none`), and
the endpoint consequently rejects such a resolved flow with the 400
validation error rather than an unhandled exception. -/
theorem has_chat_total_on_malformed_data
    (fd : Option (List (String × Json))) (h : malformed_flow_data fd = true) :
    has_chat_input fd = some false ∧ has_chat_output fd = some false ∧
      ∀ (env : HandlerEnv) (request : OpenAIResponsesRequest) (flow : FlowRead),
        env.flowLookup = some flow → flow.data = fd →
        (openai_chat_completions env request).outcome =
          .error ⟨400, .openai (create_openai_error chat_components_error_msg)⟩ := by
  have hi : has_chat_input fd = some false := hasChatNode_of_malformed _ fd h
  have ho : has_chat_output fd = some false := hasChatNode_of_malformed _ fd h
  refine ⟨hi, ho, ?_⟩
  intro env request flow hf hd
  simp only [openai_chat_completions, hf]
  rw [hd, hi]

/-- Witness for `has_chat_total_on_malformed_data`: a nodes list whose single
node lacks a "type" entry in its "data" dict. -/
theorem has_chat_total_on_malformed_data_witness :
    malformed_flow_data (sampleFlowData [Json.obj [("data", Json.obj [])]]) = true ∧
      has_chat_input (sampleFlowData [Json.obj [("data", Json.obj [])]]) = some false :=
  ⟨by decide,
    (has_chat_total_on_malformed_data
      (sampleFlowData [Json.obj [("data", Json.obj [])]]) (by decide)).1⟩

/-- C3: when the resolved flow's graph data lacks a chat-input-capable or a
chat-output-capable node (as determined by has_chat_input / has_chat_output
inspecting the node type tags), the endpoint fails with HTTP 400 carrying the
OpenAI-shaped error body, performs zero flow executions and forwards no run
request - the validation happens before either execution branch is
reached. -/
theorem openai_chat_completions_validates_before_execution
    (env : HandlerEnv) (request : OpenAIResponsesRequest) (flow : FlowRead)
    (bi bo : Bool)
    (hflow : env.flowLookup = some flow)
    (hin : has_chat_input flow.data = some bi)
    (hout : has_chat_output flow.data = some bo)
    (hmiss : bi = false ∨ bo = false) :
    openai_chat_completions env request =
      ⟨.error ⟨400, .openai (create_openai_error chat_components_error_msg)⟩,
        0, none⟩ := by
  simp only [openai_chat_completions, hflow]
  rw [hin]
  cases bi with
  | false => rfl
  | true =>
    rw [hout]
    cases bo with
    | false => rfl
    | true => simp at hmiss

/-- Witness for `openai_chat_completions_validates_before_execution`: a flow
with a chat input node but no chat output node. -/
theorem openai_chat_completions_validates_before_execution_witness :
    openai_chat_completions
        (sampleEnv (sampleFlowData [chatInputNode]) (.ok nestedHi))
        (sampleRequest [⟨"user", "hello"⟩] false none) =
      ⟨.error ⟨400, .openai (create_openai_error chat_components_error_msg)⟩,
        0, none⟩ :=
  openai_chat_completions_validates_before_execution
    (sampleEnv (sampleFlowData [chatInputNode]) (.ok nestedHi))
    (sampleRequest [⟨"user", "hello"⟩] false none)
    (sampleFlow (sampleFlowData [chatInputNode])) true false
    rfl rfl rfl (Or.inr rfl)

lemma extract_of_missing :
    ∀ result : Json, missing_at_some_level result = true →
      extract_response_content result = some "" := by
  intro r h
  cases r with
  | null => rfl
  | bool b => rfl
  | num n => rfl
  | str s => rfl
  | arr items => rfl
  | obj fields =>
    simp only [missing_at_some_level] at h
    cases h1 : jlookup fields "outputs" with
    | none => simp [extract_response_content, h1]
    | some v =>
      cases v with
      | null => simp [h1] at h
      | bool b => simp [h1] at h
      | num n => simp [h1] at h
      | str s => simp [h1] at h
      | obj fs => simp [h1] at h
      | arr items =>
        cases items with
        | nil => simp [extract_response_content, h1, level_first_element]
        | cons first restL =>
          cases first with
          | null => simp [h1] at h
          | bool b => simp [h1] at h
          | num n => simp [h1] at h
          | str s => simp [h1] at h
          | arr xs => simp [h1] at h
          | obj f1 =>
            simp only [h1] at h
            cases h2 : jlookup f1 "outputs" with
            | none =>
              simp [extract_response_content, h1, level_first_element,
                level_in_subscript, h2]
            | some v2 =>
              cases v2 with
              | null => simp [h2] at h
              | bool b => simp [h2] at h
              | num n => simp [h2] at h
              | str s => simp [h2] at h
              | obj fs => simp [h2] at h
              | arr items2 =>
                cases items2 with
                | nil =>
                  simp [extract_response_content, h1, level_first_element,
                    level_in_subscript, h2]
                | cons fd restL2 =>
                  cases fd with
                  | null => simp [h2] at h
                  | bool b => simp [h2] at h
                  | num n => simp [h2] at h
                  | str s => simp [h2] at h
                  | arr xs => simp [h2] at h
                  | obj f2 =>
                    simp only [h2] at h
                    cases h3 : jlookup f2 "results" with
                    | none =>
                      simp [extract_response_content, h1, level_first_element,
                        level_in_subscript, h2, h3]
                    | some v3 =>
                      cases v3 with
                      | null => simp [h3] at h
                      | bool b => simp [h3] at h
                      | num n => simp [h3] at h
                      | str s => simp [h3] at h
                      | arr xs => simp [h3] at h
                      | obj rs =>
                        simp only [h3] at h
                        cases h4 : jlookup rs "message" with
                        | none =>
                          simp [extract_response_content, h1,
                            level_first_element, level_in_subscript, h2, h3, h4]
                        | some v4 =>
                          cases v4 with
                          | null => simp [h4] at h
                          | bool b => simp [h4] at h
                          | num n => simp [h4] at h
                          | str s => simp [h4] at h
                          | arr xs => simp [h4] at h
                          | obj msg =>
                            simp only [h4, Option.isNone_iff_eq_none] at h
                            simp [extract_response_content, h1,
                              level_first_element, level_in_subscript,
                              message_get_text, h2, h3, h4, h]

/-- C2: for the nested result of the testable property the endpoint returns a
single-choice response whose message content is exactly "hi"; and for every
non-streaming result in which some level of the nesting (outputs, first
output, inner outputs, first entry, results, message, text) is absent, the
extracted content defensively defaults to the empty string - no exception -
so the single choice's message content is "". -/
theorem nonstreaming_unwrap_hi_and_defaults :
    (openai_chat_completions (sampleEnv goodFlowData (.ok nestedHi))
        (sampleRequest [⟨"user", "hello"⟩] false none)).outcome =
      .ok (.json
        { id := "chatcmpl-uuid-completion", object := "chat.completion",
          created := 0, model := "flow-1",
          choices := [⟨0, ⟨"assistant", "hi"⟩, "stop"⟩],
          usage := ⟨1, 1, 2⟩ }) ∧
    (∀ result : Json, missing_at_some_level result = true →
      extract_response_content result = some "") ∧
    (∀ (env : HandlerEnv) (request : OpenAIResponsesRequest) (flow : FlowRead)
        (last : OpenAIMessage) (result : Json),
      env.flowLookup = some flow →
      has_chat_input flow.data = some true →
      has_chat_output flow.data = some true →
      request.stream = false →
      request.messages.getLast? = some last →
      env.runOutcome = .ok result →
      missing_at_some_level result = true →
      ∃ r : OpenAIResponsesResponse,
        (openai_chat_completions env request).outcome = .ok (.json r) ∧
        r.choices = [⟨0, ⟨"assistant", ""⟩, "stop"⟩]) := by
  refine ⟨rfl, extract_of_missing, ?_⟩
  intro env request flow last result hflow hin hout hstream hlast hrun hmiss
  have hext : extract_response_content result = some "" :=
    extract_of_missing result hmiss
  simp only [openai_chat_completions, hflow, hin, hout, hlast, hstream,
    hrun, hext]
  exact ⟨_, rfl, rfl⟩

/-- Witness for `nonstreaming_unwrap_hi_and_defaults` at a result whose
outputs list is empty. -/
theorem nonstreaming_unwrap_hi_and_defaults_witness :
    missing_at_some_level (Json.obj [("outputs", Json.arr [])]) = true ∧
      extract_response_content (Json.obj [("outputs", Json.arr [])]) = some "" :=
  ⟨by decide,
    nonstreaming_unwrap_hi_and_defaults.2.1
      (Json.obj [("outputs", Json.arr [])]) (by decide)⟩

/-- C6: whenever the non-streaming path succeeds, the reported usage counts
are the whitespace-split word counts of the forwarded input message (the last
message's content) and of the extracted response content, and total_tokens is
their sum. -/
theorem nonstreaming_usage_word_counts
    (env : HandlerEnv) (request : OpenAIResponsesRequest) (flow : FlowRead)
    (last : OpenAIMessage) (result : Json) (content : String)
    (hflow : env.flowLookup = some flow)
    (hin : has_chat_input flow.data = some true)
    (hout : has_chat_output flow.data = some true)
    (hstream : request.stream = false)
    (hlast : request.messages.getLast? = some last)
    (hrun : env.runOutcome = .ok result)
    (hext : extract_response_content result = some content) :
    ∃ r : OpenAIResponsesResponse,
      (openai_chat_completions env request).outcome = .ok (.json r) ∧
      r.usage = ⟨(pySplit last.content).length, (pySplit content).length,
        (pySplit last.content).length + (pySplit content).length⟩ := by
  simp only [openai_chat_completions, hflow, hin, hout, hlast, hstream,
    hrun, hext]
  exact ⟨_, rfl, rfl⟩

/-- Witness for `nonstreaming_usage_word_counts`: prompt "a b c" and
completion "x y" give usage (3, 2, 5). -/
theorem nonstreaming_usage_word_counts_witness :
    ∃ r : OpenAIResponsesResponse,
      (openai_chat_completions (sampleEnv goodFlowData (.ok nestedXY))
          (sampleRequest [⟨"user", "a b c"⟩] false none)).outcome =
        .ok (.json r) ∧
      r.usage = ⟨3, 2, 5⟩ := by
  obtain ⟨r, h1, h2⟩ := nonstreaming_usage_word_counts
    (sampleEnv goodFlowData (.ok nestedXY))
    (sampleRequest [⟨"user", "a b c"⟩] false none)
    (sampleFlow goodFlowData) ⟨"user", "a b c"⟩ nestedXY "x y"
    rfl rfl rfl rfl rfl rfl rfl
  exact ⟨r, h1, h2.trans (by decide)⟩

/-- C8 (the code evaluated at a failing input): for a stream=true request
with messages ["first", "second"] and no session id, the endpoint as written
forwards no run request at all and performs zero flow executions - the
coroutine called at line 158 is never awaited, so the SimplifiedAPIRequest
construction inside run_flow_for_openai_responses never runs - whereas the
identical request with stream=false forwards exactly the last message's
content as the input value together with the freshly drawn session uuid, as
the claim describes. -/
theorem stream_request_forwards_no_run_request :
    (openai_chat_completions (sampleEnv goodFlowData (.ok nestedHi))
        (sampleRequest [⟨"user", "first"⟩, ⟨"user", "second"⟩] true
          none)).forwarded = none ∧
    (openai_chat_completions (sampleEnv goodFlowData (.ok nestedHi))
        (sampleRequest [⟨"user", "first"⟩, ⟨"user", "second"⟩] true
          none)).executions = 0 ∧
    (openai_chat_completions (sampleEnv goodFlowData (.ok nestedHi))
        (sampleRequest [⟨"user", "first"⟩, ⟨"user", "second"⟩] false
          none)).forwarded.map (fun r => r.input_value) = some "second" ∧
    (openai_chat_completions (sampleEnv goodFlowData (.ok nestedHi))
        (sampleRequest [⟨"user", "first"⟩, ⟨"user", "second"⟩] false
          none)).forwarded.map (fun r => r.session_id) =
      some (some "uuid-session") :=
  ⟨rfl, rfl, rfl, rfl⟩
